import Mathlib

/-!
Verification of the NeuroHire assessment-pipeline backend.

This file gives a shallow embedding, in Lean 4, of the pieces of the
Python backend that the specification's testable properties talk about:

* `Backend/services/cv_analysis_client.py` — the retrying CV+JD inference
  gateway and its output normalization (`_normalize_result`, `_int_or_none`,
  `run_cv_jd_analysis`);
* `Backend/services/video_analysis_client.py` — the retrying video
  inference gateway (`run_video_full_pipeline`, `_normalize_video_result`);
* `Backend/repositories/cv_repo.py` — `update_cv_analysis` and
  `is_analysis_complete_for_application`;
* `Backend/routes/candidate_routes.py` — the CV background stage
  (`_download_and_analyze_cv`), the analysis-status endpoint, and the
  selected-job / cv-url session handling;
* `Backend/repositories/application_repo.py` — the per-job progress
  projection of `list_applications_for_job`;
* `Backend/repositories/video_repo.py` — `upsert_video_metadata` and
  `update_video_analysis_fields`;
* `Backend/repositories/job_repo.py` — `_validate_weightage_sum_100` and
  the `create_job` / `update_job` entry points.

Python runtime values flowing through the dynamic parts of the code are
modelled by the `PyVal` type below.  Python `dict`s are modelled as ordered
association lists (Python dictionaries preserve insertion order, and the
normalizers rely on `setdefault`, whose append-at-end behaviour we mirror).
Numbers are exact (`Int` / `Rat`); the only numeric operation the verified
claims exercise on floats is `int(...)` truncation, which is independent of
binary floating-point representation for the inputs involved.
-/

set_option autoImplicit false

namespace NeuroHire

/-- A Python runtime value, as far as the backend's dynamic payload handling
is concerned: `None`, booleans, integers, floats (modelled exactly as
rationals), strings, lists and (ordered) string-keyed dicts. -/
inductive PyVal where
  | none
  | bool (b : Bool)
  | int (n : Int)
  | float (q : Rat)
  | str (s : String)
  | list (xs : List PyVal)
  | dict (entries : List (String × PyVal))
  deriving Repr

/-- Ordered string-keyed dictionary, the model of a Python `dict`. -/
abbrev PyDict := List (String × PyVal)

/-- `d.get(k)` on a Python dict: first binding for `k`, if any. -/
def pyDictGet (d : PyDict) (k : String) : Option PyVal :=
  match d.find? (fun kv => kv.1 = k) with
  | Option.none => Option.none
  | some kv => some kv.2

/-- `d[k] = v` on a Python dict: replace the binding in place if the key is
present, otherwise append the new binding at the end. -/
def pyDictSet (d : PyDict) (k : String) (v : PyVal) : PyDict :=
  if d.any (fun kv => kv.1 = k) then
    d.map (fun kv => if kv.1 = k then (k, v) else kv)
  else
    d ++ [(k, v)]

/-- `d.setdefault(k, v)`: append the binding at the end only if absent. -/
def pyDictSetdefault (d : PyDict) (k : String) (v : PyVal) : PyDict :=
  if d.any (fun kv => kv.1 = k) then d else d ++ [(k, v)]

/-- Python truthiness of a value (`if v:`). -/
def pyTruthy : PyVal → Bool
  | .none => false
  | .bool b => b
  | .int n => n ≠ 0
  | .float q => q ≠ 0
  | .str s => s ≠ ""
  | .list xs => !xs.isEmpty
  | .dict entries => !entries.isEmpty

/-- Is the value Python `None`? (`v is None`). -/
def isPyNone : PyVal → Bool
  | .none => true
  | _ => false

/-!
String helpers.  The embedding works on the character lists underlying
`String`s (several core `String` primitives operate on byte positions and
do not reduce inside the kernel).  Python's `str.strip()`/`str.lower()` are
modelled on the ASCII range, which covers every string the backend matches
on.
-/

/-- Is the character ASCII whitespace (the characters `str.strip()` and the
verified code paths care about)? -/
def isSpaceChar (c : Char) : Bool :=
  c = ' ' || c = '\t' || c = '\n' || c = '\r'

/-- Python `s.strip()`. -/
def pyStrip (s : String) : String :=
  ⟨((s.data.dropWhile isSpaceChar).reverse.dropWhile isSpaceChar).reverse⟩

/-- Python `s.lower()`. -/
def pyLower (s : String) : String :=
  ⟨s.data.map Char.toLower⟩

/-- `k.lower().replace(" ", "_")` — the key canonicalization of the result
normalizers (replacement of a single-character pattern is character-wise). -/
def lowerUnderscore (k : String) : String :=
  ⟨k.data.map (fun c => let c := c.toLower; if c = ' ' then '_' else c)⟩

/-- Does `l` start with `pat`? -/
def pyStartsWith (s pat : String) : Bool :=
  pat.data.isPrefixOf s.data

/-- Does the character list contain `pat` as a contiguous run? -/
def containsSeg (pat : List Char) : List Char → Bool
  | [] => pat.isPrefixOf []
  | c :: t => pat.isPrefixOf (c :: t) || containsSeg pat t

/-- Substring test: does `s` contain `pat`? (Python `pat in s`.) -/
def strContains (s pat : String) : Bool :=
  containsSeg pat.data s.data

/-- `sep.join(parts)`. -/
def joinWith (sep : String) : List String → String
  | [] => ""
  | [x] => x
  | x :: xs => x ++ sep ++ joinWith sep xs

/-- Truncation toward zero of an exact float value: Python `int(float)`. -/
def ratTrunc (q : Rat) : Int :=
  q.num.tdiv (q.den : Int)

/-- Decimal value of a digit string (helper for `pyIntOfStr`). -/
def digitsToNat (cs : List Char) : Nat :=
  cs.foldl (fun acc c => acc * 10 + (c.toNat - 48)) 0

/-- Python `int(s)` on a string: optional surrounding whitespace, optional
sign, then decimal digits; anything else raises `ValueError` (represented
here by `Option.none`).  Underscore digit separators are not modelled; no
verified claim feeds strings containing them to `int`. -/
def pyIntOfStr (s : String) : Option Int :=
  let t := (pyStrip s).data
  let neg := t.head? = some (Char.ofNat 45)
  let core := match t with
    | c :: rest => if c = Char.ofNat 45 || c = Char.ofNat 43 then rest else t
    | [] => t
  if core.length > 0 && core.all Char.isDigit then
    some (if neg then -(digitsToNat core : Int) else (digitsToNat core : Int))
  else
    Option.none

mutual

/-- Python `str(v)`.  For strings this is the string itself; for containers
Python renders elements with `repr`; we render them with `pyStr` and do not
model `repr` quoting — no verified claim depends on the printed form of a
container or float (the retry-marker substring checks are only applied to
payloads whose relevant text survives any quoting convention). -/
def pyStr : PyVal → String
  | .none => "None"
  | .bool b => if b then "True" else "False"
  | .int n => toString n
  | .float q => toString q.num ++ "/" ++ toString q.den
  | .str s => s
  | .list xs => "[" ++ pyStrList xs ++ "]"
  | .dict entries => "\x7b" ++ pyStrEntries entries ++ "\x7d"

/-- Comma-joined rendering of list elements (helper for `pyStr`). -/
def pyStrList : List PyVal → String
  | [] => ""
  | [x] => pyStr x
  | x :: xs => pyStr x ++ ", " ++ pyStrList xs

/-- Comma-joined rendering of dict entries (helper for `pyStr`). -/
def pyStrEntries : List (String × PyVal) → String
  | [] => ""
  | [(k, v)] => k ++ ": " ++ pyStr v
  | (k, v) :: kvs => k ++ ": " ++ pyStr v ++ ", " ++ pyStrEntries kvs

end

/-- A raised Python exception, as observed by the clients' handlers:
its class name, an optional `message` attribute, and its `str(...)` form. -/
structure PyExc where
  typeName : String
  message : Option String := Option.none
  strRepr : String
  deriving Repr, DecidableEq

/-- `str(e)` of an exception. -/
def pyExcStr (e : PyExc) : String := e.strRepr

/-! ## `Backend/services/cv_analysis_client.py` -/

/-- `MAX_RETRIES` of the CV client. -/
def MAX_RETRIES : Nat := 4

/-- `PARSE_ERROR_STRINGS`: phrases in model raw output that trigger a retry. -/
def PARSE_ERROR_STRINGS : List String :=
  ["Model output could not be parsed as JSON", "JSON parse failed"]

/-- `_is_connection_error(exc)`: true if the exception looks like a
disconnect/timeout/connection failure.  Mirrors the message / class-name
pattern matching of the source (`msg = (getattr(exc, "message", None) or
str(exc)).lower()`; an empty `message` attribute is falsy and falls back to
`str(exc)`). -/
def is_connection_error (exc : PyExc) : Bool :=
  let msg := (match exc.message with
    | some m => if m = "" then pyExcStr exc else m
    | Option.none => pyExcStr exc)
  let msg := pyLower msg
  let errname := pyLower exc.typeName
  strContains msg "disconnect" || strContains msg "connection" ||
    strContains msg "timeout" || strContains msg "reset" ||
    strContains msg "closed" || strContains msg "refused" ||
    strContains errname "readtimeout" || strContains errname "connecttimeout" ||
    strContains errname "connectionerror" || strContains errname "remoteerror"

/-- `_should_retry(result)`: the stringified raw output contains a known
parse-failure marker. -/
def should_retry (result : PyVal) : Bool :=
  PARSE_ERROR_STRINGS.any (fun phrase => strContains (pyStr result) phrase)

/-- `_str(v)`: `"" if v is None else str(v).strip()`. -/
def pyStrField : PyVal → String
  | .none => ""
  | v => pyStrip (pyStr v)

/-- `_int_or_none(v)`: Python `int(v)` wrapped to `None` on
`TypeError`/`ValueError`.  `int` truncates floats toward zero, parses
integer-literal strings, maps booleans to 0/1, and fails on everything
else (including `None`, handled first in the source). -/
def int_or_none : PyVal → Option Int
  | .none => Option.none
  | .int n => some n
  | .float q => some (ratTrunc q)
  | .bool b => some (if b then 1 else 0)
  | .str s => pyIntOfStr s
  | .list _ => Option.none
  | .dict _ => Option.none

section CvNormalize

/- The CV client's `_parse_json_str` delegates to the Python `json` module
(with a markdown-fence strip and a single-quote fallback).  The JSON library
is an external collaborator; the embedding abstracts it as a parameter
mapping the string to the entries of the resulting dict (`{}` on failure).
No verified claim exercises the string-parsing branch. -/
variable (parse_json_str : String → PyDict)

/-- One normalization step of `_normalize_result`'s key loop: entries with a
`None` value are skipped, known key variants are canonicalized
(case-insensitively, spaces replaced by underscores), and unknown keys are
copied through. -/
def normalizeCvEntry (out : PyDict) (kv : String × PyVal) : PyDict :=
  let k := kv.1
  let v := kv.2
  if isPyNone v then out
  else
    let k_lower := lowerUnderscore k
    if k_lower = "email" || k_lower = "email_address" then
      pyDictSet out "email" (.str (pyStrField v))
    else if k_lower = "home_address" || k_lower = "address" then
      pyDictSet out "address" (.str (pyStrField v))
    else if k_lower = "name" then
      pyDictSet out "name" (.str (pyStrField v))
    else if k_lower = "phone_number" || k_lower = "phone" then
      pyDictSet out "phone_number" (.str (pyStrField v))
    else if k_lower = "matching_analysis" then
      pyDictSet out "matching_analysis"
        (match v with
         | .list xs => .list xs
         | _ => if pyTruthy v then .list [v] else .list [])
    else if k_lower = "description" then
      pyDictSet out "description" (.str (pyStrField v))
    else if k_lower = "total_score" || k_lower = "score" then
      pyDictSet out "Total_score"
        (match int_or_none v with
         | some n => .int n
         | Option.none => .none)
    else if k_lower = "recommendation" then
      pyDictSet out "recommendation" (.str (pyStrField v))
    else
      pyDictSet out k v

/-- The dict-extraction prefix of `_normalize_result`: a dict is used as-is;
for a list/tuple the first dict — or first string that (stripped) starts
with `{` or contains `"Total_score"` — is taken (parsed when a string), an
exhausted scan yields `{}` (Python `for`/`else`); a string is parsed; any
other value yields `{}`. -/
def cvExtractData : PyVal → PyDict
  | .dict entries => entries
  | .list xs =>
    (xs.findSome? (fun item =>
      match item with
      | .dict entries => some entries
      | .str s =>
        if pyStartsWith (pyStrip s) "\x7b" || strContains s "Total_score" then
          some (parse_json_str s)
        else Option.none
      | _ => Option.none)).getD []
  | .str s => parse_json_str s
  | _ => []

/-- `_normalize_result(raw)`: extract a dict from the heterogeneous raw
response, canonicalize its keys, then `setdefault` every schema key so the
callers can read each field without existence checks. -/
def normalize_result (raw : PyVal) : PyDict :=
  let data := cvExtractData parse_json_str raw
  let out := data.foldl normalizeCvEntry []
  let out := pyDictSetdefault out "name" (.str "")
  let out := pyDictSetdefault out "email" (.str "")
  let out := pyDictSetdefault out "phone_number" (.str "")
  let out := pyDictSetdefault out "address" (.str "")
  let out := pyDictSetdefault out "description" (.str "")
  let out := pyDictSetdefault out "matching_analysis" (.list [])
  let out := pyDictSetdefault out "Total_score" .none
  pyDictSetdefault out "recommendation" (.str "")

/-- The all-empty result dict `run_cv_jd_analysis` builds on its failure
paths, with the given `error` string. -/
def cvEmptyResult (error : String) : PyDict :=
  [("name", .str ""), ("email", .str ""), ("phone_number", .str ""),
   ("address", .str ""), ("description", .str ""),
   ("matching_analysis", .list []), ("Total_score", .none),
   ("recommendation", .str ""), ("error", .str error)]

/-- Outcome of one `client.predict` attempt: a raw response value, or a
raised exception. -/
inductive CvAttempt where
  | ok (raw : PyVal)
  | exn (e : PyExc)

/-- The retry loop of `run_cv_jd_analysis`, with the remote call abstracted
as `oracle : Nat → CvAttempt` (attempt number ↦ outcome).  Returns the
result dict together with the total number of attempts made.  Mirrors the
source exactly: a parse-failure marker in a successful response retries
unless this is the final attempt; any exception retries (after a delay)
unless this is the final attempt, in which case the all-empty dict with
`error = str(last_error)` is returned; a loop that exits by exhausting
`range(max_retries)` (only possible for `max_retries = 0`) falls through to
the trailing `return`. -/
def run_cv_jd_analysis_loop (oracle : Nat → CvAttempt) (max_retries : Nat)
    (attempt : Nat) (last_result : Option PyVal) (last_error : Option String) :
    PyDict × Nat :=
  if _h : attempt < max_retries then
    match oracle attempt with
    | .ok raw =>
      if should_retry raw && decide (attempt < max_retries - 1) then
        run_cv_jd_analysis_loop oracle max_retries (attempt + 1) (some raw) last_error
      else
        (normalize_result parse_json_str raw, attempt + 1)
    | .exn e =>
      if attempt < max_retries - 1 then
        run_cv_jd_analysis_loop oracle max_retries (attempt + 1) last_result
          (some (pyExcStr e))
      else
        (cvEmptyResult (pyExcStr e), attempt + 1)
  else
    ((match last_result with
      | some r => normalize_result parse_json_str r
      | Option.none => cvEmptyResult "Could not parse analysis after retries"),
     attempt)
termination_by max_retries - attempt
decreasing_by all_goals omega

/-- `run_cv_jd_analysis`: after coercing the job description (done before
the loop; it only affects the request payload, folded into the oracle) and
checking that the CV file exists, run the retry loop from attempt 0. -/
def run_cv_jd_analysis (oracle : Nat → CvAttempt) (cv_path_exists : Bool)
    (max_retries : Nat := MAX_RETRIES) : PyDict × Nat :=
  if !cv_path_exists then (cvEmptyResult "CV file not found", 0)
  else run_cv_jd_analysis_loop parse_json_str oracle max_retries 0 Option.none Option.none

end CvNormalize

/-- `(job_description or "").strip() or " "`: empty/whitespace context is
coerced to a single space. -/
def coerce_job_description (jd : Option String) : String :=
  let s := pyStrip (jd.getD "")
  if s = "" then " " else s

/-- The raw payload of C2:
`{"Email_Address": "a@b.com", "Total Score": 0.76}`. -/
def c2Payload : PyVal :=
  .dict [("Email_Address", .str "a@b.com"), ("Total Score", .float (mkRat 76 100))]

/-! ## `Backend/services/video_analysis_client.py` -/

/-- `VIDEO_MAX_RETRIES` of the video client. -/
def VIDEO_MAX_RETRIES : Nat := 4

section VideoNormalize

variable (parse_json_str : String → PyDict)

/-- The dict-extraction prefix of `_normalize_video_result`: same shape as
the CV client's, but a string element of a list is taken when it contains
`{` or `"visual_confidence_score"`. -/
def videoExtractData : PyVal → PyDict
  | .dict entries => entries
  | .list xs =>
    (xs.findSome? (fun item =>
      match item with
      | .dict entries => some entries
      | .str s =>
        if strContains s "\x7b" || strContains s "visual_confidence_score" then
          some (parse_json_str s)
        else Option.none
      | _ => Option.none)).getD []
  | .str s => parse_json_str s
  | _ => []

/-- `_normalize_video_result(raw)`: flatten the FastAPI response shape
(`visual_analysis` / `grading` sub-dicts, top-level `transcript`) to the
top-level keys the rest of the backend expects, then copy through every raw
key that was not flattened (`visual_analysis` / `grading` excluded). -/
def normalize_video_result (raw : PyVal) : PyDict :=
  let data := videoExtractData parse_json_str raw
  let out : PyDict :=
    match pyDictGet data "transcript" with
    | some t => [("transcript", t)]
    | Option.none => []
  -- `va = data.get("visual_analysis") or {}` — a falsy value becomes `{}`;
  -- the five keys are set (possibly to `None`) only when `va` is a dict.
  let va := (pyDictGet data "visual_analysis").getD .none
  let va := if pyTruthy va then va else .dict []
  let out :=
    match va with
    | .dict vaEntries =>
      let out := pyDictSet out "face_presence_ratio" ((pyDictGet vaEntries "face_presence_ratio").getD .none)
      let out := pyDictSet out "camera_engagement_ratio" ((pyDictGet vaEntries "camera_engagement_ratio").getD .none)
      let out := pyDictSet out "yaw_variance" ((pyDictGet vaEntries "yaw_variance").getD .none)
      let out := pyDictSet out "visual_confidence_score" ((pyDictGet vaEntries "visual_confidence_score").getD .none)
      pyDictSet out "needs_review" ((pyDictGet vaEntries "needs_review").getD .none)
    | _ => out
  let gr := (pyDictGet data "grading").getD .none
  let gr := if pyTruthy gr then gr else .dict []
  let out :=
    match gr with
    | .dict grEntries =>
      let out := pyDictSet out "summary" ((pyDictGet grEntries "summary").getD .none)
      let scores := (pyDictGet grEntries "scores").getD .none
      let scores := if pyTruthy scores then scores else .dict []
      (match scores with
       | .dict scEntries =>
         let out := pyDictSet out "relevance" ((pyDictGet scEntries "relevance").getD .none)
         pyDictSet out "clarity" ((pyDictGet scEntries "clarity").getD .none)
       | _ => out)
    | _ => out
  -- keep raw keys we did not flatten so `_find_key_deep` still has a fallback
  data.foldl (fun acc kv =>
    if acc.any (fun kv2 => kv2.1 = kv.1) || kv.1 = "visual_analysis" || kv.1 = "grading" then
      acc
    else acc ++ [kv]) out

/-- Outcome of one `requests.post` attempt of `run_video_full_pipeline`:
an HTTP response (`ok` status flag, the error message the handler would
extract from a non-ok body, and the decoded JSON body), or a raised
exception.  The two `except` clauses of the source (`RequestException` and
the bare `Exception`) behave identically, so one `exn` case models both. -/
inductive VideoAttempt where
  | resp (ok : Bool) (err_msg : String) (body : PyVal)
  | exn (e : PyExc)

/-- The retry loop of `run_video_full_pipeline`: an ok response returns the
normalized body at once; a non-ok response returns `{"error": ...}` without
retrying; an exception retries (after a delay) unless this is the final
attempt, which returns `{"error": str(last_error)}`.  The result dict is
paired with the number of attempts made.  The trailing `return` after the
loop is reachable only with a zero retry budget. -/
def run_video_pipeline_loop (oracle : Nat → VideoAttempt)
    (attempt : Nat) (last_error : Option String) : PyDict × Nat :=
  if _h : attempt < VIDEO_MAX_RETRIES then
    match oracle attempt with
    | .resp ok err_msg body =>
      if ok then (normalize_video_result parse_json_str body, attempt + 1)
      else ([("error", .str err_msg)], attempt + 1)
    | .exn e =>
      if attempt < VIDEO_MAX_RETRIES - 1 then
        run_video_pipeline_loop oracle (attempt + 1) (some (pyExcStr e))
      else
        ([("error", .str (pyExcStr e))], attempt + 1)
  else
    ([("error", .str (last_error.getD "Video analysis failed after retries"))], attempt)
termination_by VIDEO_MAX_RETRIES - attempt
decreasing_by all_goals omega

/-- `run_video_full_pipeline`: check the video file exists (else return the
not-found error dict without any attempt), then run the retry loop from
attempt 0. -/
def run_video_full_pipeline (oracle : Nat → VideoAttempt)
    (video_path_exists : Bool) (video_path : String) : PyDict × Nat :=
  if !video_path_exists then
    ([("error", .str ("Video file not found at " ++ video_path))], 0)
  else run_video_pipeline_loop parse_json_str oracle 0 Option.none

end VideoNormalize

/-! ## `Backend/repositories/cv_repo.py` -/

/-- The columns of a `cv_data` row joined with the candidate's `full_name`,
as read by `is_analysis_complete_for_application`.  Timestamps are modelled
as seconds (exact rationals), matching the `total_seconds()` arithmetic of
the source. -/
structure CvStatusRow where
  technical_score : Option Int
  cv_text : Option String
  full_name : Option String
  uploaded_at : Option Rat

/-- `is_analysis_complete_for_application(pool, application_id)`: true iff
the row exists and has a non-null score, or non-empty trimmed `cv_text`, or
a non-empty trimmed candidate `full_name`, or `uploaded_at` is at least 45
seconds old (a missing `uploaded_at` counts as age 0).  `row = none` models
the query returning no row. -/
def is_analysis_complete_for_application (now : Rat) (row : Option CvStatusRow) : Bool :=
  match row with
  | Option.none => false
  | some r =>
    let cv_text := pyStrip (r.cv_text.getD "")
    let has_score := r.technical_score.isSome
    let has_text := cv_text ≠ ""
    let has_name := pyStrip (r.full_name.getD "") ≠ ""
    let age_seconds : Rat :=
      match r.uploaded_at with
      | some up => now - up
      | Option.none => 0
    let old_enough := age_seconds ≥ 45
    has_score || has_text || has_name || old_enough

/-- The row actually written by `update_cv_analysis`: the SQL `UPDATE` sets
`cv_text = cv_text or ""`, `parsed_keywords = parsed_keywords or ""`, and
`technical_score` as passed. -/
def update_cv_analysis_row (cv_text parsed_keywords : String)
    (technical_score : Option Int) : String × String × Option Int :=
  (if cv_text = "" then "" else cv_text,
   if parsed_keywords = "" then "" else parsed_keywords,
   technical_score)

/-! ## `Backend/routes/candidate_routes.py` — CV background stage -/

/-- `_clean_extracted_value(v)`: `None` for `None`, and for values whose
`str(...).strip()` is empty or a literal absence marker; otherwise the
stripped string. -/
def clean_extracted_value : Option PyVal → Option String
  | Option.none => Option.none
  | some v =>
    match v with
    | .none => Option.none
    | v =>
      let s := pyStrip (pyStr v)
      if s = "" || pyLower s = "not provided" || pyLower s = "n/a" ||
          pyLower s = "na" || pyLower s = "none" then
        Option.none
      else some s

/-- The `ai_assessments` payload `_download_and_analyze_cv` builds for
`upsert_cv_jd_assessment`. -/
structure AssessmentPayload where
  cv_score : PyVal
  cv_recommendation : Option String
  cv_matching_analysis : Option String
  cv_reason_summary : Option String
  cv_jd_output : PyDict
  deriving Repr

/-- A store call made by the CV background stage, in program order. -/
inductive StoreCall where
  | updateCandidate (full_name email phone address : Option String)
  | updateCvAnalysis (cv_text parsed_keywords : String) (technical_score : PyVal)
  | upsertCvJdAssessment (payload : AssessmentPayload)
  deriving Repr

/-- Outcome of the media download at the top of the stage. -/
inductive DownloadOutcome where
  | ok
  | fail (err : String)
  deriving Repr, DecidableEq

/-- Outcome of a step that either completes or raises. -/
inductive StepOutcome (α : Type) where
  | ok (a : α)
  | raises (e : PyExc)

/-- The environment a run of `_download_and_analyze_cv` executes against:
the download outcome, the result of `run_cv_jd_analysis` (which can itself
only raise before its own try/except, e.g. while constructing the client),
and the outcome of the `update_candidate_from_extraction` store call.  The
outcome of the trailing `upsert_cv_jd_assessment` is irrelevant to the trace
(its exception is caught and only logged). -/
structure CvStageEnv where
  download : DownloadOutcome
  analysis : StepOutcome PyDict
  candidate_update : StepOutcome Unit

/-- The mutable locals of `_download_and_analyze_cv`, with their initial
values. -/
structure CvStageVars where
  cv_text : String := ""
  parsed_keywords : String := ""
  technical_score : PyVal := .none
  assessment_payload : Option AssessmentPayload := Option.none

/-- `cv_text = (analysis.get("description") or "").strip()` — a falsy value
yields `""`; calling `.strip()` on a truthy non-string raises
`AttributeError` (modelled as `Except.error`). -/
def cvTextOfAnalysis (d : PyDict) : Except Unit String :=
  match (pyDictGet d "description").getD .none with
  | .str s => Except.ok (pyStrip s)
  | v => if pyTruthy v then Except.error () else Except.ok ""

/-- A crude rendering of `json.dumps` for the `parsed_keywords` column; no
verified claim inspects this string. -/
def jsonDumpsList (xs : List PyVal) : String :=
  "[" ++ pyStrList xs ++ "]"

/-- `"\n".join(str(x) for x in matching)` — joining over a list joins its
elements; over a string, its characters; iterating any other truthy value
raises `TypeError` (modelled as `Except.error`). -/
def joinMatching : PyVal → Except Unit String
  | .list xs => Except.ok (joinWith "\n" (xs.map pyStr))
  | .str s => Except.ok (joinWith "\n" (s.data.map String.singleton))
  | _ => Except.error ()

/-- The body of the outer `try` after a successful download and analysis
call: compute the extracted fields in source order and issue the candidate
update.  Returns the store calls made inside the `try` together with the
values of the locals when control leaves it (normally or by an exception —
in the latter case the locals hold whatever had been assigned so far). -/
def cvTryBody (d : PyDict) (_candidate_update : StepOutcome Unit) :
    List StoreCall × CvStageVars :=
  let name := clean_extracted_value (pyDictGet d "name")
  let email := clean_extracted_value (pyDictGet d "email")
  let phone := clean_extracted_value (pyDictGet d "phone_number")
  let address := clean_extracted_value (pyDictGet d "address")
  match cvTextOfAnalysis d with
  | Except.error _ => ([], {})
  | Except.ok cv_text =>
    -- `matching = analysis.get("matching_analysis") or []`
    let matchingRaw := (pyDictGet d "matching_analysis").getD .none
    let matching := if pyTruthy matchingRaw then matchingRaw else .list []
    let parsed_keywords :=
      match matching with
      | .list xs => jsonDumpsList xs
      | v => pyStr v
    let technical_score := (pyDictGet d "Total_score").getD .none
    let assigned : CvStageVars :=
      { cv_text := cv_text, parsed_keywords := parsed_keywords,
        technical_score := technical_score }
    -- `cv_matching_str = "\n".join(str(x) for x in matching) if matching else None`
    let matchingStr : Except Unit (Option String) :=
      if pyTruthy matching then
        match joinMatching matching with
        | Except.ok s => Except.ok (some s)
        | Except.error u => Except.error u
      else Except.ok Option.none
    -- `(analysis.get("recommendation") or "").strip() or None`, evaluated
    -- while the payload dict literal is built: a falsy value yields `None`,
    -- a truthy non-string raises `AttributeError` (payload never assigned)
    let recommendation : Except Unit (Option String) :=
      match (pyDictGet d "recommendation").getD .none with
      | .str s => Except.ok (if pyStrip s = "" then Option.none else some (pyStrip s))
      | v => if pyTruthy v then Except.error () else Except.ok Option.none
    match matchingStr, recommendation with
    | Except.error _, _ => ([], assigned)
    | _, Except.error _ => ([], assigned)
    | Except.ok cv_matching_str, Except.ok cv_recommendation =>
      let payload : AssessmentPayload :=
        { cv_score := technical_score,
          cv_recommendation := cv_recommendation,
          cv_matching_analysis := cv_matching_str,
          cv_reason_summary := if pyStrip cv_text = "" then Option.none else some (pyStrip cv_text),
          cv_jd_output := d }
      let vars := { assigned with assessment_payload := some payload }
      -- the candidate update is issued; whether it raises or not, nothing
      -- else runs inside the `try`, so both outcomes leave the same state
      (([StoreCall.updateCandidate name email phone address], vars) :
        List StoreCall × CvStageVars)

/-- The `finally` block: substitute a single space for the text when neither
text nor score was obtained, always call `update_cv_analysis`, and attempt
`upsert_cv_jd_assessment` whenever a payload was built. -/
def cvFinallyCalls (v : CvStageVars) : List StoreCall :=
  let cv_text :=
    if v.cv_text = "" && isPyNone v.technical_score then " " else v.cv_text
  StoreCall.updateCvAnalysis cv_text v.parsed_keywords v.technical_score ::
    (match v.assessment_payload with
     | some p => [StoreCall.upsertCvJdAssessment p]
     | Option.none => [])

/-- The full store-call trace of one run of `_download_and_analyze_cv`.
A failed download returns from the inner `except` (the `finally` still
runs); an exception from the analysis call or anywhere in the `try` body is
caught by the outer `except` (the `finally` still runs). -/
def download_and_analyze_cv (env : CvStageEnv) : List StoreCall :=
  let r : List StoreCall × CvStageVars :=
    match env.download with
    | .fail _ => (([] : List StoreCall), ({} : CvStageVars))
    | .ok =>
      match env.analysis with
      | .raises _ => (([] : List StoreCall), ({} : CvStageVars))
      | .ok d => cvTryBody d env.candidate_update
  r.1 ++ cvFinallyCalls r.2

/-- Recognizer for the `update_cv_analysis` call in a trace. -/
def isCvUpdateCall : StoreCall → Bool
  | .updateCvAnalysis _ _ _ => true
  | _ => false

/-! ## `Backend/routes/candidate_routes.py` — status endpoint -/

/-- Outcome of `asyncio.wait_for(is_analysis_complete_for_application(...),
timeout=10.0)`: a boolean within the bound, a `TimeoutError` past the 10 s
bound, or any other store error. -/
inductive StoreCheckOutcome where
  | ok (complete : Bool)
  | timeout
  | failure (e : PyExc)
  deriving Repr

/-- `candidate_analysis_status`: `pending = False` when no application is
tracked; otherwise negate the completeness check, with `TimeoutError` and
every other exception both caught and mapped to `pending = False`. -/
def candidate_analysis_status (latest_application_id : Option Nat)
    (store : StoreCheckOutcome) : Bool :=
  match latest_application_id with
  | Option.none => false
  | some _ =>
    match store with
    | .ok complete => !complete
    | .timeout => false
    | .failure _ => false

/-! ## `Backend/routes/candidate_routes.py` — selected job and CV upload -/

/-- `SelectedJobPayload.model_dump()`: the fields of the pydantic payload.
Optional fields default to `None`. -/
structure SelectedJobPayload where
  job_id : String
  title : Option String := Option.none
  location : Option String := Option.none
  company_name : Option String := Option.none
  branch_name : Option String := Option.none
  job_description : Option String := Option.none
  deriving Repr, DecidableEq

/-- The module-level `_candidate_selected_job` dict: session key ↦ selected
job payload. -/
abbrev SelectedJobStore := List (String × SelectedJobPayload)

/-- Set an entry of the selected-job store (Python dict assignment: replace
the binding if the key is present — keys are unique in a dict — else append). -/
def storeSet : SelectedJobStore → String → SelectedJobPayload → SelectedJobStore
  | [], k, v => [(k, v)]
  | kv :: rest, k, v =>
    if kv.1 = k then (k, v) :: rest else kv :: storeSet rest k v

/-- Look up an entry of the selected-job store (`dict.get`). -/
def storeGet (store : SelectedJobStore) (k : String) : Option SelectedJobPayload :=
  match store.find? (fun kv => kv.1 = k) with
  | Option.none => Option.none
  | some kv => some kv.2

/-- `set_candidate_selected_job(payload, session_id="")`:
`key = session_id or "default"`, then store the payload under that key. -/
def set_candidate_selected_job (store : SelectedJobStore) (payload : SelectedJobPayload)
    (session_id : String) : SelectedJobStore :=
  let key := if session_id = "" then "default" else session_id
  storeSet store key payload

/-- A database write issued by the synchronous part of `receive_cv_url`,
in program order. -/
inductive CvUploadWrite where
  | createCandidateMinimal
  | createApplication (job_id : Int)
  | insertEmptyAssessment
  | insertCvMetadata (file_url : String) (file_size : Option Int) (mime_type : Option String)
  deriving Repr, DecidableEq

/-- `receive_cv_url(payload)`: reads the selected job from the **"default"**
session key only.  Missing selection (or falsy `job_id`) → HTTP 400 before
any write; unparseable `job_id` → HTTP 400 before any write; otherwise the
candidate, application, empty assessment and CV metadata rows are created
(and the background stage is scheduled).  The result is either the error
status/detail or the list of writes performed. -/
def receive_cv_url (store : SelectedJobStore) (file_url : String)
    (file_size : Option Int) (mime_type : Option String) :
    Except (Nat × String) (List CvUploadWrite) :=
  match storeGet store "default" with
  | Option.none => Except.error (400, "No selected job for candidate CV upload")
  | some selected =>
    if selected.job_id = "" then
      Except.error (400, "No selected job for candidate CV upload")
    else
      match pyIntOfStr selected.job_id with
      | Option.none => Except.error (400, "Invalid job_id for candidate CV upload")
      | some job_id =>
        Except.ok
          [CvUploadWrite.createCandidateMinimal,
           CvUploadWrite.createApplication job_id,
           CvUploadWrite.insertEmptyAssessment,
           CvUploadWrite.insertCvMetadata file_url file_size mime_type]

/-! ## `Backend/repositories/application_repo.py` — progress projection -/

/-- Python `round(x)` (banker's rounding: ties go to the even integer),
applied here to the exact value of the progress expression. -/
def pyRound (q : Rat) : Int :=
  let f := ⌊q⌋
  let frac := q - f
  if frac < 1/2 then f
  else if 1/2 < frac then f + 1
  else if f % 2 = 0 then f else f + 1

/-- The `_progress` closure of `list_applications_for_job`: with zero
questions report `(100, True)`; otherwise
`pct = min(100, round(analyzed / total_questions * 100))` and
`complete = pct >= 100`. -/
def job_progress (total_questions analyzed : Nat) : Int × Bool :=
  if total_questions = 0 then (100, true)
  else
    let pct := min 100 (pyRound ((analyzed : Rat) / (total_questions : Rat) * 100))
    (pct, decide (pct ≥ 100))

/-! ## `Backend/repositories/video_repo.py` and the analyzed-count query -/

/-- A `video_submissions` row.  The DB column written by the upload path is
`"camera_engagement_Ratio"` (quoted, capital R); the field here uses the
lowercase spelling.  `created_at` is an abstract timestamp. -/
structure VideoSubmission where
  video_id : Nat
  application_id : Nat
  question_index : Int
  question_text : String
  video_url : String
  video_file_key : Option String
  file_size : Option Int
  mime_type : Option String
  audio_transcript : Option String := Option.none
  face_presence_ratio : Option Rat := Option.none
  camera_engagement_ratio : Option Rat := Option.none
  yaw_variance : Option Rat := Option.none
  video_score : Option Int := Option.none
  created_at : Nat
  deriving Repr, DecidableEq

/-- The metadata carried by one `upsert_video_metadata` call. -/
structure VideoMeta where
  application_id : Nat
  question_index : Int
  question_text : String
  video_url : String
  video_file_key : Option String
  file_size : Option Int
  mime_type : Option String
  deriving Repr, DecidableEq

/-- Does the row carry the given `(application_id, question_index)` key? -/
def keyMatches (app : Nat) (qi : Int) (s : VideoSubmission) : Bool :=
  s.application_id = app && s.question_index = qi

/-- At most one row per `(application_id, question_index)` — the table's
unique constraint. -/
def KeyUnique (subs : List VideoSubmission) : Prop :=
  List.Pairwise
    (fun a b => ¬(a.application_id = b.application_id ∧ a.question_index = b.question_index))
    subs

/-- `upsert_video_metadata`: `INSERT ... ON CONFLICT (application_id,
question_index) DO UPDATE` — if a row with the key exists, overwrite its
metadata columns and refresh `created_at = NOW()` (keeping `video_id` and
the analysis columns); otherwise insert a fresh row.  `next_id` models the
sequence value a fresh insert would receive, `now` the current time. -/
def upsert_video_metadata (subs : List VideoSubmission) (next_id now : Nat)
    (m : VideoMeta) : List VideoSubmission :=
  if subs.any (keyMatches m.application_id m.question_index) then
    subs.map (fun s =>
      if keyMatches m.application_id m.question_index s then
        { s with question_text := m.question_text,
                 video_url := m.video_url,
                 video_file_key := m.video_file_key,
                 file_size := m.file_size,
                 mime_type := m.mime_type,
                 created_at := now }
      else s)
  else
    subs ++ [{ video_id := next_id,
               application_id := m.application_id,
               question_index := m.question_index,
               question_text := m.question_text,
               video_url := m.video_url,
               video_file_key := m.video_file_key,
               file_size := m.file_size,
               mime_type := m.mime_type,
               created_at := now }]

/-- `update_video_analysis_fields`: `UPDATE video_submissions SET
audio_transcript, face_presence_ratio, "camera_engagement_Ratio",
yaw_variance WHERE application_id = $1 AND question_index = $2` — a plain
update of the four analysis columns; `video_score` is not touched, and a
missing row makes the statement a no-op. -/
def update_video_analysis_fields (subs : List VideoSubmission)
    (app : Nat) (qi : Int) (audio_transcript : Option String)
    (face_presence : Option Rat) (camera_engagement : Option Rat)
    (yaw : Option Rat) : List VideoSubmission :=
  subs.map (fun s =>
    if keyMatches app qi s then
      { s with audio_transcript := audio_transcript,
               face_presence_ratio := face_presence,
               camera_engagement_ratio := camera_engagement,
               yaw_variance := yaw }
    else s)

/-- The progress numerator of `list_applications_for_job`:
`SELECT COUNT(*) FROM video_submissions vs WHERE vs.application_id =
ca.application_id AND vs.video_score IS NOT NULL`. -/
def analyzed_count (subs : List VideoSubmission) (app : Nat) : Nat :=
  (subs.filter (fun s => s.application_id = app && s.video_score.isSome)).length

/-- Does the row carry any non-null video-level analysis data (the
transcript or engagement metrics written by the video stage)? -/
def hasAnalysisMetrics (s : VideoSubmission) : Bool :=
  s.audio_transcript.isSome || s.face_presence_ratio.isSome ||
    s.camera_engagement_ratio.isSome || s.yaw_variance.isSome

/-! ## `Backend/repositories/job_repo.py` -/

/-- A write issued against the `jobs` table. -/
inductive JobWrite where
  | insertJob (cv_score_weightage video_score_weightage : Int)
  | updateJob (job_id : Nat) (cv_score_weightage video_score_weightage : Int)
  deriving Repr, DecidableEq

/-- `_validate_weightage_sum_100`: raise `ValueError` unless the two
weightages sum to exactly 100. -/
def validate_weightage_sum_100 (cv_score_weightage video_score_weightage : Int) :
    Except String Unit :=
  if cv_score_weightage + video_score_weightage ≠ 100 then
    Except.error
      ("cv_score_weightage and video_score_weightage must sum to 100 (got " ++
        toString cv_score_weightage ++ " + " ++ toString video_score_weightage ++
        " = " ++ toString (cv_score_weightage + video_score_weightage) ++ ")")
  else Except.ok ()

/-- `create_job`: validation runs first; only a validated call reaches the
`INSERT`.  The remaining (non-weightage) columns do not influence the
validation and are omitted from the write record.  Returns the outcome and
the writes performed. -/
def create_job (cv_score_weightage video_score_weightage : Int) :
    Except String Unit × List JobWrite :=
  match validate_weightage_sum_100 cv_score_weightage video_score_weightage with
  | Except.error msg => (Except.error msg, [])
  | Except.ok () =>
    (Except.ok (), [JobWrite.insertJob cv_score_weightage video_score_weightage])

/-- `update_job`: same validate-then-write shape over an `UPDATE`. -/
def update_job (job_id : Nat) (cv_score_weightage video_score_weightage : Int) :
    Except String Unit × List JobWrite :=
  match validate_weightage_sum_100 cv_score_weightage video_score_weightage with
  | Except.error msg => (Except.error msg, [])
  | Except.ok () =>
    (Except.ok (), [JobWrite.updateJob job_id cv_score_weightage video_score_weightage])

end NeuroHire



/-! # Theorems -/

namespace NeuroHire

/-- C1: an inference-gateway call whose every attempt raises a
connection-class error makes exactly 4 attempts total and then returns —
rather than raising — a result dict whose `error` field is the string of
the last error and whose content fields are all empty/null; both for
`run_cv_jd_analysis` (every schema field at its empty/null default) and
for `run_video_full_pipeline` (only the `error` key, so every content
field reads as null). -/
theorem c1_retry_bound (pj : String → PyDict) (e : Nat → PyExc)
    (hconn : ∀ i, i < 4 → is_connection_error (e i) = true) (video_path : String) :
    run_cv_jd_analysis pj (fun i => CvAttempt.exn (e i)) true =
      ([("name", PyVal.str ""), ("email", PyVal.str ""), ("phone_number", PyVal.str ""),
        ("address", PyVal.str ""), ("description", PyVal.str ""),
        ("matching_analysis", PyVal.list []), ("Total_score", PyVal.none),
        ("recommendation", PyVal.str ""), ("error", PyVal.str (pyExcStr (e 3)))], 4) ∧
    run_video_full_pipeline pj (fun i => VideoAttempt.exn (e i)) true video_path =
      ([("error", PyVal.str (pyExcStr (e 3)))], 4) ∧
    (∀ k, k ≠ "error" →
      pyDictGet [("error", PyVal.str (pyExcStr (e 3)))] k = Option.none) := by
  refine ⟨?_, ?_, ?_⟩
  · simp [run_cv_jd_analysis, run_cv_jd_analysis_loop, MAX_RETRIES, cvEmptyResult]
  · simp [run_video_full_pipeline, run_video_pipeline_loop, VIDEO_MAX_RETRIES]
  · intro k hk
    simp [pyDictGet, Ne.symm hk]

/-- Witness for C1 at a concrete connection error. -/
theorem c1_retry_bound_witness :
    (∀ i, i < 4 →
      is_connection_error ⟨"ConnectionError", Option.none, "Connection reset by peer"⟩ = true) ∧
    run_cv_jd_analysis (fun _ => [])
        (fun _ => CvAttempt.exn ⟨"ConnectionError", Option.none, "Connection reset by peer"⟩) true =
      ([("name", PyVal.str ""), ("email", PyVal.str ""), ("phone_number", PyVal.str ""),
        ("address", PyVal.str ""), ("description", PyVal.str ""),
        ("matching_analysis", PyVal.list []), ("Total_score", PyVal.none),
        ("recommendation", PyVal.str ""), ("error", PyVal.str "Connection reset by peer")], 4) ∧
    run_video_full_pipeline (fun _ => [])
        (fun _ => VideoAttempt.exn ⟨"ConnectionError", Option.none, "Connection reset by peer"⟩) true "video.webm" =
      ([("error", PyVal.str "Connection reset by peer")], 4) := by
  have h := c1_retry_bound (fun _ => [])
    (fun _ => ⟨"ConnectionError", Option.none, "Connection reset by peer"⟩)
    (by decide) "video.webm"
  exact ⟨by decide, h.1, h.2.1⟩

set_option maxHeartbeats 1600000 in
/-- C2 counterexample: on the payload
`{"Email_Address": "a@b.com", "Total Score": 0.76}` the CV client's
`_normalize_result` does **not** produce `Total_score = 76`: `_int_or_none`
applies Python `int(...)`, which truncates `0.76` to `0` — the ×100
fraction scaling exists only in the video client's `_as_int_score`. -/
theorem c2_total_score_counterexample :
    pyDictGet (normalize_result (fun _ => []) c2Payload) "Total_score" = some (PyVal.int 0) ∧
    some (PyVal.int 0) ≠ some (PyVal.int 76) := by
  have h : normalize_result (fun _ => []) c2Payload =
      [("email", PyVal.str "a@b.com"), ("Total_score", PyVal.int 0),
       ("name", PyVal.str ""), ("phone_number", PyVal.str ""),
       ("address", PyVal.str ""), ("description", PyVal.str ""),
       ("matching_analysis", PyVal.list []), ("recommendation", PyVal.str "")] := rfl
  rw [h]
  refine ⟨rfl, ?_⟩
  simp

set_option maxHeartbeats 1600000 in
/-- C2 (amended): on the payload
`{"Email_Address": "a@b.com", "Total Score": 0.76}`, `_normalize_result`
returns `email = "a@b.com"`, `Total_score = 0` (the fraction is truncated
by `int(...)`, not scaled), and every other schema key present with its
empty/null default — for every behaviour of the (unreached) JSON-string
parser. -/
theorem c2_normalization_amended (pj : String → PyDict) :
    normalize_result pj c2Payload =
      [("email", PyVal.str "a@b.com"), ("Total_score", PyVal.int 0),
       ("name", PyVal.str ""), ("phone_number", PyVal.str ""),
       ("address", PyVal.str ""), ("description", PyVal.str ""),
       ("matching_analysis", PyVal.list []), ("recommendation", PyVal.str "")] := rfl

/-- C5: the analysis-status endpoint fails open — whenever the bounded
store check times out (10 s bound) or raises any error, the endpoint
reports `pending = false`, regardless of the actual analysis state. -/
theorem c5_status_fail_open (app : Option Nat) (store : StoreCheckOutcome)
    (h : store = StoreCheckOutcome.timeout ∨ ∃ e, store = StoreCheckOutcome.failure e) :
    candidate_analysis_status app store = false := by
  rcases h with h | ⟨e, h⟩ <;> subst h <;> cases app <;> rfl

/-- Witness for C5 at a concrete timed-out check. -/
theorem c5_status_fail_open_witness :
    candidate_analysis_status (some 3) StoreCheckOutcome.timeout = false :=
  c5_status_fail_open (some 3) StoreCheckOutcome.timeout (Or.inl rfl)

/-- C8: `create_job` and `update_job` reject — with a `ValueError` raised
by the weightage validation, before any database write — every integer
pair of weightages not summing to exactly 100 (negatives and values above
100 included), and raise no such error when the sum is exactly 100. -/
theorem c8_weightage_validation (cv vw : Int) (jid : Nat) :
    (cv + vw ≠ 100 →
      (create_job cv vw).1.isOk = false ∧ (create_job cv vw).2 = [] ∧
      (update_job jid cv vw).1.isOk = false ∧ (update_job jid cv vw).2 = []) ∧
    (cv + vw = 100 →
      create_job cv vw = (Except.ok (), [JobWrite.insertJob cv vw]) ∧
      update_job jid cv vw = (Except.ok (), [JobWrite.updateJob jid cv vw])) := by
  constructor
  · intro h
    simp [create_job, update_job, validate_weightage_sum_100, if_pos h, Except.isOk,
      Except.toBool]
  · intro h
    simp [create_job, update_job, validate_weightage_sum_100, h]

/-- Witness for C8: a rejected pair summing to 120 and an accepted pair
summing to 100. -/
theorem c8_weightage_validation_witness :
    ((create_job 90 30).1.isOk = false ∧ (create_job 90 30).2 = []) ∧
    create_job 60 40 = (Except.ok (), [JobWrite.insertJob 60 40]) :=
  ⟨⟨((c8_weightage_validation 90 30 1).1 (by decide)).1,
    ((c8_weightage_validation 90 30 1).1 (by decide)).2.1⟩,
   ((c8_weightage_validation 60 40 1).2 (by decide)).1⟩

/-- Shared helper: with a null score, empty text and no candidate name,
`is_analysis_complete_for_application` reduces to the 45-second age
fallback. -/
lemma isComplete_null_fields (now up : Rat) :
    is_analysis_complete_for_application now
      (some { technical_score := Option.none, cv_text := some "",
              full_name := Option.none, uploaded_at := some up }) =
      decide (now - up ≥ 45) := by
  have hstrip : pyStrip "" = "" := rfl
  simp [is_analysis_complete_for_application, hstrip]

/-- C4: for a CvRecord with null `technical_score`, empty `cv_text` and no
candidate `full_name`, the status endpoint reports not-pending when
`uploaded_at` is 46 s in the past, pending when it is 10 s in the past, and
in general the completeness predicate holds exactly when the record is at
least 45 s old — the 45-second threshold is the cutoff. -/
theorem c4_time_fallback :
    (∀ now : Rat,
      candidate_analysis_status (some 1)
        (StoreCheckOutcome.ok (is_analysis_complete_for_application now
          (some { technical_score := Option.none, cv_text := some "",
                  full_name := Option.none, uploaded_at := some (now - 46) }))) = false) ∧
    (∀ now : Rat,
      candidate_analysis_status (some 1)
        (StoreCheckOutcome.ok (is_analysis_complete_for_application now
          (some { technical_score := Option.none, cv_text := some "",
                  full_name := Option.none, uploaded_at := some (now - 10) }))) = true) ∧
    (∀ now up : Rat,
      is_analysis_complete_for_application now
        (some { technical_score := Option.none, cv_text := some "",
                full_name := Option.none, uploaded_at := some up }) = true ↔
        now - up ≥ 45) := by
  refine ⟨?_, ?_, ?_⟩
  · intro now
    have h46 : now - (now - 46) = (46 : Rat) := by ring
    simp [candidate_analysis_status, isComplete_null_fields, h46]
    norm_num
  · intro now
    have h10 : now - (now - 10) = (10 : Rat) := by ring
    simp [candidate_analysis_status, isComplete_null_fields, h10]
    norm_num
  · intro now up
    rw [isComplete_null_fields]
    simp

/-- Shared helper: Python `round` at an exact integer. -/
lemma pyRound_intCast (n : Int) : pyRound (n : Rat) = n := by
  simp [pyRound]

/-- C6: the video-progress projection reports `(100, true)` for a job with
zero questions; otherwise `percent = min(100, round(100·analyzed/total))`
with `complete = (percent ≥ 100)`; in particular 2 of 4 analyzed gives
`(50, false)` and 3 of 3 gives `(100, true)`. -/
theorem c6_video_progress :
    (∀ analyzed, job_progress 0 analyzed = (100, true)) ∧
    (∀ total analyzed, total ≠ 0 →
      job_progress total analyzed =
        (min 100 (pyRound (100 * (analyzed : Rat) / (total : Rat))),
         decide (min 100 (pyRound (100 * (analyzed : Rat) / (total : Rat))) ≥ 100))) ∧
    job_progress 4 2 = (50, false) ∧
    job_progress 3 3 = (100, true) := by
  refine ⟨fun analyzed => rfl, ?_, ?_, ?_⟩
  · intro total analyzed h
    have harg : (analyzed : Rat) / (total : Rat) * 100 = 100 * (analyzed : Rat) / (total : Rat) := by
      ring
    simp [job_progress, h, harg]
  · have hpr50 : pyRound ((2 : Rat) / 4 * 100) = 50 := by
      have h50 : ((2 : Rat) / 4 * 100) = ((50 : Int) : Rat) := by norm_num
      rw [h50, pyRound_intCast]
    simp [job_progress, hpr50]
  · have h100 : pyRound ((100 : Rat)) = 100 := by
      have hc : ((100 : Rat)) = ((100 : Int) : Rat) := by norm_num
      rw [hc, pyRound_intCast]
    simp [job_progress, h100]

/-- Witness for C6 at a concrete non-zero question count. -/
theorem c6_video_progress_witness :
    job_progress 3 3 =
      (min 100 (pyRound (100 * ((3 : Nat) : Rat) / ((3 : Nat) : Rat))),
       decide (min 100 (pyRound (100 * ((3 : Nat) : Rat) / ((3 : Nat) : Rat))) ≥ 100)) :=
  c6_video_progress.2.1 3 3 (by decide)

/-- Shared helper: a store read at the key just written sees the new value. -/
lemma storeGet_storeSet_self (s : SelectedJobStore) (k : String) (v : SelectedJobPayload) :
    storeGet (storeSet s k v) k = some v := by
  induction s with
  | nil => simp [storeSet, storeGet]
  | cons hd tl ih =>
    by_cases h : hd.1 = k
    · simp [storeSet, storeGet, h]
    · simp [storeSet, storeGet, h] at ih ⊢
      exact ih

/-- Shared helper: a store read at a different key is unaffected by a write. -/
lemma storeGet_storeSet_ne (s : SelectedJobStore) (k k2 : String)
    (v : SelectedJobPayload) (h : k2 ≠ k) :
    storeGet (storeSet s k v) k2 = storeGet s k2 := by
  induction s with
  | nil => simp [storeSet, storeGet, Ne.symm h]
  | cons hd tl ih =>
    by_cases hh : hd.1 = k
    · subst hh
      simp [storeSet, storeGet, Ne.symm h]
    · by_cases h2 : hd.1 = k2
      · simp [storeSet, storeGet, hh, h2, h]
      · simp [storeSet, storeGet, hh, h2] at ih ⊢
        exact ih

/-- C10 counterexample: the claim quantifies over **every** non-empty
`session_id`, but `session_id = "default"` is non-empty and lands on
exactly the key `receive_cv_url` reads, so for that flow the CV submission
succeeds (creating candidate/application/assessment/CV rows) instead of
failing with 400. -/
theorem c10_session_counterexample :
    ("default" : String) ≠ "" ∧
    receive_cv_url
        (set_candidate_selected_job []
          { job_id := "3", job_description := some "desc" } "default")
        "https://cv.example/u.pdf" (some 100) (some "application/pdf") =
      Except.ok
        [CvUploadWrite.createCandidateMinimal,
         CvUploadWrite.createApplication 3,
         CvUploadWrite.insertEmptyAssessment,
         CvUploadWrite.insertCvMetadata "https://cv.example/u.pdf" (some 100)
           (some "application/pdf")] := by
  exact ⟨by decide, rfl⟩

/-- C10 (amended): if a job is selected only under a non-empty session id
**different from `"default"`**, the selection is stored under that session
key, the `"default"` key stays empty, and a subsequent CV submission fails
with the 400 "No selected job" error — in particular no candidate,
application, assessment or CV row is written. -/
theorem c10_session_key_mismatch (store : SelectedJobStore) (p : SelectedJobPayload)
    (sid : String) (hsid : sid ≠ "") (hsid2 : sid ≠ "default")
    (hdef : storeGet store "default" = Option.none)
    (file_url : String) (file_size : Option Int) (mime_type : Option String) :
    storeGet (set_candidate_selected_job store p sid) sid = some p ∧
    storeGet (set_candidate_selected_job store p sid) "default" = Option.none ∧
    receive_cv_url (set_candidate_selected_job store p sid) file_url file_size mime_type =
      Except.error (400, "No selected job for candidate CV upload") := by
  have hkey : set_candidate_selected_job store p sid = storeSet store sid p := by
    simp [set_candidate_selected_job, hsid]
  have hdef2 : storeGet (storeSet store sid p) "default" = Option.none := by
    rw [storeGet_storeSet_ne store sid "default" p (Ne.symm hsid2)]
    exact hdef
  refine ⟨?_, ?_, ?_⟩
  · rw [hkey]
    exact storeGet_storeSet_self store sid p
  · rw [hkey]
    exact hdef2
  · rw [hkey]
    simp [receive_cv_url, hdef2]

/-- Witness for C10 (amended) at a concrete session id. -/
theorem c10_session_key_mismatch_witness :
    storeGet (set_candidate_selected_job [] { job_id := "3" } "s1") "s1" =
      some { job_id := "3" } ∧
    receive_cv_url (set_candidate_selected_job [] { job_id := "3" } "s1")
        "u" Option.none Option.none =
      Except.error (400, "No selected job for candidate CV upload") := by
  have h := c10_session_key_mismatch [] { job_id := "3" } "s1"
    (by decide) (by decide) rfl "u" Option.none Option.none
  exact ⟨h.1, h.2.2⟩

/-- C7 (code bug): the progress numerator counts rows with non-null
`video_score`, but `update_video_analysis_fields` — the only analysis
write the video stage performs — never touches `video_score` (and nothing
else in the codebase writes it).  First conjunct: the metrics update never
changes the analyzed count, for any store state.  Second/third conjuncts:
at the concrete failing input — one submission whose metrics the video
stage has just written — the row carries non-null transcript/metrics yet
the analyzed count is still 0, so the question is not counted as analyzed
and progress can never reach 100 for a job with questions. -/
theorem c7_metrics_write_not_counted :
    (∀ (subs : List VideoSubmission) (app : Nat) (qi : Int)
        (tr : Option String) (fp ce yv : Option Rat),
      analyzed_count (update_video_analysis_fields subs app qi tr fp ce yv) app =
        analyzed_count subs app) ∧
    analyzed_count
      (update_video_analysis_fields
        [{ video_id := 1, application_id := 1, question_index := 0,
           question_text := "Q1", video_url := "https://v.example/a.webm",
           video_file_key := Option.none, file_size := Option.none,
           mime_type := Option.none, created_at := 0 }]
        1 0 (some "transcript text") (some (mkRat 9 10)) (some (mkRat 8 10))
        (some (mkRat 1 10))) 1 = 0 ∧
    (update_video_analysis_fields
        [{ video_id := 1, application_id := 1, question_index := 0,
           question_text := "Q1", video_url := "https://v.example/a.webm",
           video_file_key := Option.none, file_size := Option.none,
           mime_type := Option.none, created_at := 0 }]
        1 0 (some "transcript text") (some (mkRat 9 10)) (some (mkRat 8 10))
        (some (mkRat 1 10))).all hasAnalysisMetrics = true := by
  refine ⟨?_, rfl, rfl⟩
  intro subs app qi tr fp ce yv
  unfold analyzed_count update_video_analysis_fields
  induction subs with
  | nil => rfl
  | cons hd tl ih =>
    by_cases h : keyMatches app qi hd = true
    · simp only [List.map_cons, List.filter_cons, if_pos h]
      by_cases hp : (hd.application_id = app && hd.video_score.isSome) = true
      · simpa [hp] using ih
      · simpa [hp] using ih
    · simp only [List.map_cons, List.filter_cons, h, if_neg]
      by_cases hp : (hd.application_id = app && hd.video_score.isSome) = true
      · simpa [hp, h] using ih
      · simpa [hp, h] using ih

/-- Shared helper: the `finally` block issues exactly one
`update_cv_analysis` call, with the single-space substitution applied. -/
lemma cvFinally_filter (v : CvStageVars) :
    (cvFinallyCalls v).filter isCvUpdateCall =
      [StoreCall.updateCvAnalysis
        (if v.cv_text = "" && isPyNone v.technical_score then " " else v.cv_text)
        v.parsed_keywords v.technical_score] := by
  cases h : v.assessment_payload <;> simp [cvFinallyCalls, isCvUpdateCall, h]

/-- Shared helper: the `try` body issues no `update_cv_analysis` call
(only, possibly, the candidate-profile update). -/
lemma cvTryBody_filter (d : PyDict) (cu : StepOutcome Unit) :
    ((cvTryBody d cu).1).filter isCvUpdateCall = [] := by
  cases hE : cvTextOfAnalysis d with
  | error u => simp [cvTryBody, hE]
  | ok t =>
    simp only [cvTryBody, hE]
    split <;> rfl

/-- Shared helper: every run of the stage decomposes into try-body calls
(containing no CV update) followed by the `finally` calls. -/
lemma cvTrace_decomp (env : CvStageEnv) :
    ∃ (c : List StoreCall) (v : CvStageVars),
      download_and_analyze_cv env = c ++ cvFinallyCalls v ∧
      c.filter isCvUpdateCall = [] ∧
      ((∀ err, env.download = DownloadOutcome.fail err → c = [] ∧ v = {}) ∧
       (∀ e, env.analysis = StepOutcome.raises e → c = [] ∧ v = {})) := by
  rcases env with ⟨dl, an, cu⟩
  cases dl with
  | fail err =>
    refine ⟨[], {}, rfl, rfl, ?_, ?_⟩
    · intro e h
      exact ⟨rfl, rfl⟩
    · intro e h
      exact ⟨rfl, rfl⟩
  | ok =>
    cases an with
    | raises e =>
      refine ⟨[], {}, rfl, rfl, ?_, ?_⟩
      · intro e2 h
        cases h
      · intro e2 h
        exact ⟨rfl, rfl⟩
    | ok d =>
      refine ⟨(cvTryBody d cu).1, (cvTryBody d cu).2, rfl, cvTryBody_filter d cu, ?_, ?_⟩
      · intro err h
        cases h
      · intro e2 h
        cases h

/-- C3: every run of the CV background stage — including a failed media
download and any raised exception — issues exactly one
`update_cv_analysis` write; whenever the written `technical_score` is null
the written `cv_text` is non-empty, and on the failed-download and
raised-exception paths the written values are exactly
`cv_text = " "`, `parsed_keywords = ""`, `technical_score = None`. -/
theorem c3_always_finalize (env : CvStageEnv) :
    (∃ t pk ts,
      (download_and_analyze_cv env).filter isCvUpdateCall =
        [StoreCall.updateCvAnalysis t pk ts] ∧
      (isPyNone ts = true → t ≠ "")) ∧
    (∀ err, env.download = DownloadOutcome.fail err →
      download_and_analyze_cv env =
        [StoreCall.updateCvAnalysis " " "" PyVal.none]) ∧
    (∀ e, env.analysis = StepOutcome.raises e →
      download_and_analyze_cv env =
        [StoreCall.updateCvAnalysis " " "" PyVal.none]) := by
  obtain ⟨c, v, htr, hc, hfail, hraise⟩ := cvTrace_decomp env
  refine ⟨?_, ?_, ?_⟩
  · refine ⟨if v.cv_text = "" && isPyNone v.technical_score then " " else v.cv_text,
      v.parsed_keywords, v.technical_score, ?_, ?_⟩
    · rw [htr, List.filter_append, hc, cvFinally_filter v]
      rfl
    · intro hts
      by_cases hct : v.cv_text = "" <;> simp [hct, hts]
  · intro err h
    obtain ⟨hc0, hv0⟩ := hfail err h
    rw [htr, hc0, hv0]
    rfl
  · intro e h
    obtain ⟨hc0, hv0⟩ := hraise e h
    rw [htr, hc0, hv0]
    rfl

/-- Witness for C3 at a concrete failed-download environment. -/
theorem c3_always_finalize_witness :
    download_and_analyze_cv
        { download := DownloadOutcome.fail "HTTP 404",
          analysis := StepOutcome.ok [], candidate_update := StepOutcome.ok () } =
      [StoreCall.updateCvAnalysis " " "" PyVal.none] :=
  (c3_always_finalize _).2.1 "HTTP 404" rfl

/-- Shared helper: the key test, spelled as a proposition. -/
lemma keyMatches_iff (app : Nat) (qi : Int) (s : VideoSubmission) :
    keyMatches app qi s = true ↔ s.application_id = app ∧ s.question_index = qi := by
  simp [keyMatches]

/-- Shared helper: `upsert_video_metadata` preserves the at-most-one-row-
per-key invariant. -/
lemma keyUnique_upsert (subs : List VideoSubmission) (h : KeyUnique subs)
    (id now : Nat) (m : VideoMeta) :
    KeyUnique (upsert_video_metadata subs id now m) := by
  unfold upsert_video_metadata
  split
  · -- conflict: single-row update, keys unchanged
    rw [KeyUnique, List.pairwise_map]
    refine h.imp ?_
    intro a b hab
    by_cases ha : keyMatches m.application_id m.question_index a = true <;>
      by_cases hb : keyMatches m.application_id m.question_index b = true <;>
      simp only [ha, hb, if_pos, if_neg, Bool.false_eq_true] <;>
      exact hab
  · -- no conflict: fresh insert of an unused key
    next hany =>
    rw [KeyUnique, List.pairwise_append]
    refine ⟨h, List.pairwise_singleton _ _, ?_⟩
    intro a ha b hb
    simp only [List.mem_singleton] at hb
    subst hb
    intro hcon
    apply hany
    rw [List.any_eq_true]
    exact ⟨a, ha, (keyMatches_iff _ _ _).mpr ⟨hcon.1, hcon.2⟩⟩

/-- Shared helper: under the key-uniqueness invariant, a key that occurs at
all occurs in exactly one row. -/
lemma keyUnique_filter_single (subs : List VideoSubmission) (h : KeyUnique subs)
    (app : Nat) (qi : Int) (hany : subs.any (keyMatches app qi) = true) :
    ∃ s0, subs.filter (keyMatches app qi) = [s0] := by
  induction subs with
  | nil => cases hany
  | cons hd tl ih =>
    rw [KeyUnique, List.pairwise_cons] at h
    by_cases hhd : keyMatches app qi hd = true
    · refine ⟨hd, ?_⟩
      rw [List.filter_cons_of_pos hhd]
      have htl : tl.filter (keyMatches app qi) = [] := by
        rw [List.filter_eq_nil_iff]
        intro b hb hpb
        obtain ⟨hb1, hb2⟩ := (keyMatches_iff app qi b).mp hpb
        obtain ⟨h1, h2⟩ := (keyMatches_iff app qi hd).mp hhd
        exact h.1 b hb ⟨h1.trans hb1.symm, h2.trans hb2.symm⟩
      rw [htl]
    · have htl : tl.any (keyMatches app qi) = true := by
        rw [List.any_cons] at hany
        simpa [hhd] using hany
      obtain ⟨s0, hs0⟩ := ih h.2 htl
      exact ⟨s0, by rw [List.filter_cons_of_neg hhd, hs0]⟩

/-- Shared helper: after an upsert, exactly one row carries the upserted
key, and it carries the upserted metadata and the fresh `created_at`. -/
lemma upsert_filter (subs : List VideoSubmission) (h : KeyUnique subs)
    (id now : Nat) (m : VideoMeta) :
    ∃ s, (upsert_video_metadata subs id now m).filter
        (keyMatches m.application_id m.question_index) = [s] ∧
      s.question_text = m.question_text ∧ s.video_url = m.video_url ∧
      s.video_file_key = m.video_file_key ∧ s.file_size = m.file_size ∧
      s.mime_type = m.mime_type ∧ s.created_at = now := by
  unfold upsert_video_metadata
  split
  · -- conflict branch
    next hany =>
    obtain ⟨s0, hs0⟩ := keyUnique_filter_single subs h _ _ hany
    have hmem : s0 ∈ subs.filter (keyMatches m.application_id m.question_index) := by
      rw [hs0]
      exact List.mem_singleton.mpr rfl
    have hps0 : keyMatches m.application_id m.question_index s0 = true :=
      (List.mem_filter.mp hmem).2
    have hcomm :
        (subs.map (fun s =>
          if keyMatches m.application_id m.question_index s then
            { s with question_text := m.question_text, video_url := m.video_url,
                     video_file_key := m.video_file_key, file_size := m.file_size,
                     mime_type := m.mime_type, created_at := now }
          else s)).filter (keyMatches m.application_id m.question_index) =
        (subs.filter (keyMatches m.application_id m.question_index)).map (fun s =>
          if keyMatches m.application_id m.question_index s then
            { s with question_text := m.question_text, video_url := m.video_url,
                     video_file_key := m.video_file_key, file_size := m.file_size,
                     mime_type := m.mime_type, created_at := now }
          else s) := by
      rw [List.filter_map]
      congr 1
      apply List.filter_congr
      intro s _
      simp only [Function.comp]
      split <;> rfl
    refine ⟨({ s0 with
                question_text := m.question_text, video_url := m.video_url,
                video_file_key := m.video_file_key, file_size := m.file_size,
                mime_type := m.mime_type, created_at := now } : VideoSubmission),
      ?_, rfl, rfl, rfl, rfl, rfl, rfl⟩
    rw [hcomm, hs0]
    simp [hps0]
  · -- insert branch
    next hany =>
    have hnil : subs.filter (keyMatches m.application_id m.question_index) = [] := by
      rw [List.filter_eq_nil_iff]
      intro b hb hpb
      exact hany (List.any_eq_true.mpr ⟨b, hb, hpb⟩)
    rw [List.filter_append, hnil]
    refine ⟨({ video_id := id, application_id := m.application_id,
                question_index := m.question_index, question_text := m.question_text,
                video_url := m.video_url, video_file_key := m.video_file_key,
                file_size := m.file_size, mime_type := m.mime_type,
                created_at := now } : VideoSubmission), ?_, rfl, rfl, rfl, rfl, rfl, rfl⟩
    rw [List.nil_append, List.filter_cons_of_pos (by rw [keyMatches_iff]; exact ⟨rfl, rfl⟩)]
    rfl

/-- C9: submitting a video twice for the same `(application_id,
question_index)` key — with different URLs — leaves exactly one
VideoSubmission row for that key, carrying the metadata and URL of the
later submission and a refreshed `created_at`; and the at-most-one-row-
per-key invariant is preserved by the pair of upserts. -/
theorem c9_upsert_last_write_wins (subs : List VideoSubmission) (h : KeyUnique subs)
    (m1 m2 : VideoMeta) (id1 id2 now1 now2 : Nat)
    (happ : m1.application_id = m2.application_id)
    (hqi : m1.question_index = m2.question_index) :
    KeyUnique (upsert_video_metadata (upsert_video_metadata subs id1 now1 m1) id2 now2 m2) ∧
    ∃ s, (upsert_video_metadata (upsert_video_metadata subs id1 now1 m1) id2 now2 m2).filter
        (keyMatches m2.application_id m2.question_index) = [s] ∧
      s.question_text = m2.question_text ∧ s.video_url = m2.video_url ∧
      s.video_file_key = m2.video_file_key ∧ s.file_size = m2.file_size ∧
      s.mime_type = m2.mime_type ∧ s.created_at = now2 := by
  have h1 : KeyUnique (upsert_video_metadata subs id1 now1 m1) :=
    keyUnique_upsert subs h id1 now1 m1
  exact ⟨keyUnique_upsert _ h1 id2 now2 m2, upsert_filter _ h1 id2 now2 m2⟩

/-- Witness for C9: two submissions of question 0 of application 1 with
different URLs, starting from an empty table. -/
theorem c9_upsert_last_write_wins_witness :
    KeyUnique (upsert_video_metadata
      (upsert_video_metadata [] 1 10
        (VideoMeta.mk 1 0 "Q" "https://v/old.webm" Option.none Option.none Option.none))
      2 20
      (VideoMeta.mk 1 0 "Q" "https://v/new.webm" Option.none Option.none Option.none)) ∧
    ∃ s, (upsert_video_metadata
      (upsert_video_metadata [] 1 10
        (VideoMeta.mk 1 0 "Q" "https://v/old.webm" Option.none Option.none Option.none))
      2 20
      (VideoMeta.mk 1 0 "Q" "https://v/new.webm" Option.none Option.none Option.none)).filter
        (keyMatches 1 0) = [s] ∧
      s.question_text = "Q" ∧ s.video_url = "https://v/new.webm" ∧
      s.video_file_key = Option.none ∧ s.file_size = Option.none ∧
      s.mime_type = Option.none ∧ s.created_at = 20 :=
  c9_upsert_last_write_wins [] List.Pairwise.nil
    (VideoMeta.mk 1 0 "Q" "https://v/old.webm" Option.none Option.none Option.none)
    (VideoMeta.mk 1 0 "Q" "https://v/new.webm" Option.none Option.none Option.none)
    1 2 10 20 rfl rfl

end NeuroHire
